import Mathlib

/-!
Verification of the ProMatch Predictor prediction pipeline.

This file shallowly embeds the prediction core of the repository:
`src/predictionEngine.js`, the modifier resolver of
`src/context/SimulationContext.jsx`, and the odds helpers of
`src/utils/OddsUtils.js`.  JavaScript numbers are modelled as exact real
numbers; the only places where the non-finite IEEE values `NaN` and
`Infinity` can actually arise in the translated code are modelled
explicitly: the outcome percentages are `Option ℝ` (`none` standing for
the `NaN` produced by the `0/0` normalisation when the Poisson grid is
identically zero), and the radar-chart entries use the four-point type
`JsVal` (`num`/`nan`/`inf`/`ninf`) because `generateRadarData` divides by
the raw, unclamped `matchesPlayed`.
-/

noncomputable section

/-! ## JavaScript numeric helpers

`Math.round x` rounds half towards positive infinity, i.e. `⌊x + 1/2⌋`.
`x.toFixed(2)` rounds half away from zero at the second decimal.
-/

/-- `Math.round(x * 10) / 10`: round to one decimal place. -/
def jsRound1 (x : ℝ) : ℝ := ((⌊x * 10 + 1/2⌋ : ℤ) : ℝ) / 10

/-- `Math.round(x * 100) / 100`: round to two decimal places. -/
def jsRound2 (x : ℝ) : ℝ := ((⌊x * 100 + 1/2⌋ : ℤ) : ℝ) / 100

/-- `Math.round(p * 1000) / 10`: a raw probability as a percentage rounded
to one decimal, as used for `likelyScores`. -/
def jsRoundScore (p : ℝ) : ℝ := ((⌊p * 1000 + 1/2⌋ : ℤ) : ℝ) / 10

/-- `parseFloat(x.toFixed(2))`: round half away from zero to two decimals. -/
def jsToFixed2 (x : ℝ) : ℝ :=
  if x < 0 then -(((⌊-x * 100 + 1/2⌋ : ℤ) : ℝ) / 100)
  else ((⌊x * 100 + 1/2⌋ : ℤ) : ℝ) / 100

/-! ## OddsUtils.js -/

/-- `probabilityToDecimal` from `src/utils/OddsUtils.js`. -/
def probabilityToDecimal (probability : ℝ) : ℝ :=
  if probability ≤ 0 ∨ 100 < probability then 0
  else jsToFixed2 (1 / (probability / 100))

/-- `decimalToProbability` from `src/utils/OddsUtils.js`. -/
def decimalToProbability (decimalOdds : ℝ) : ℝ :=
  if decimalOdds ≤ 1 then 0
  else jsToFixed2 (1 / decimalOdds * 100)

/-- Result record of `detectValue`. -/
structure ValueResult where
  hasValue : Bool
  edge : ℝ

/-- `detectValue` from `src/utils/OddsUtils.js`.  The JavaScript guard
`!bookieOdds || !modelOdds` is falsiness of a number, i.e. the value `0`
(its inputs are ordinary finite numbers here). -/
def detectValue (bookieOdds modelOdds : ℝ) : ValueResult :=
  if bookieOdds = 0 ∨ modelOdds = 0 then ⟨false, 0⟩
  else
    ⟨decide (modelOdds < bookieOdds),
     jsToFixed2 (decimalToProbability modelOdds - decimalToProbability bookieOdds)⟩

/-! ## SimulationContext.jsx: the modifier resolver -/

/-- Per-side multipliers produced by the resolver. -/
structure SideModifiers where
  attackMultiplier : ℝ
  defenseMultiplier : ℝ
  formWeight : ℝ

/-- The `{home, away}` modifier record consumed by `predictMatch`. -/
structure Modifiers where
  home : SideModifiers
  away : SideModifiers

/-- The raw simulation-parameter set of `SimulationContext.jsx`. -/
structure Simulation where
  homeKeyPlayerMissing : Bool
  awayKeyPlayerMissing : Bool
  homeFortress : Bool
  formWeight : ℝ
  homeMotivation : ℝ
  awayMotivation : ℝ
  weatherImpact : ℝ
  homeTacticalStyle : String
  awayTacticalStyle : String

/-- `getDefaultSimulation` from `SimulationContext.jsx`. -/
def getDefaultSimulation : Simulation :=
  ⟨false, false, false, 40, 100, 100, 0, "balanced", "balanced"⟩

/-- Attack/defense factor pair of a tactical style. -/
structure TacticalStyle where
  attack : ℝ
  defense : ℝ

/-- The per-style lookup inside `getTacticalModifiers`; any unrecognized
style string falls back to `balanced`. -/
def tacticalStyleFor (style : String) : TacticalStyle :=
  if style = "defensive" then ⟨0.85, 0.85⟩
  else if style = "balanced" then ⟨1.0, 1.0⟩
  else if style = "attacking" then ⟨1.15, 1.15⟩
  else ⟨1.0, 1.0⟩

/-- `calculateModifiers` from `SimulationContext.jsx`.  The source mutates
the four multipliers in sequence (key player × motivation × weather ×
tactical style); the translation takes their product in the same order. -/
def calculateModifiers (simulation : Simulation) : Modifiers :=
  let weatherFactor : ℝ := 1 + simulation.weatherImpact / 100
  let tacticalHome := tacticalStyleFor simulation.homeTacticalStyle
  let tacticalAway := tacticalStyleFor simulation.awayTacticalStyle
  let homeAttack : ℝ :=
    (if simulation.homeKeyPlayerMissing then (1 : ℝ) * 0.7 else 1)
      * (simulation.homeMotivation / 100)
      * max 0.8 (weatherFactor * 0.9)
      * tacticalHome.attack
  let awayAttack : ℝ :=
    (if simulation.awayKeyPlayerMissing then (1 : ℝ) * 0.7 else 1)
      * (simulation.awayMotivation / 100)
      * max 0.8 weatherFactor
      * tacticalAway.attack
  let homeDefense : ℝ :=
    (if simulation.homeFortress then (1 : ℝ) * 0.85 else 1) * tacticalHome.defense
  let awayDefense : ℝ := (1 : ℝ) * tacticalAway.defense
  ⟨⟨homeAttack, homeDefense, simulation.formWeight / 100⟩,
   ⟨awayAttack, awayDefense, simulation.formWeight / 100⟩⟩

/-! ## predictionEngine.js -/

/-- `factorial` from `predictionEngine.js` (for `n = 0, 1` the loop body
does not run and the result is `1`). -/
def factorial : ℕ → ℕ
  | 0 => 1
  | n + 1 => (n + 1) * factorial n

/-- `poissonProbability` from `predictionEngine.js`:
`P(X = k) = λ^k e^(−λ) / k!`, and `0` whenever `λ ≤ 0`. -/
def poissonProbability (lambda : ℝ) (k : ℕ) : ℝ :=
  if lambda ≤ 0 then 0 else lambda ^ k * Real.exp (-lambda) / (factorial k : ℝ)

/-- `calculateAttackStrength` from `predictionEngine.js`. -/
def calculateAttackStrength (goalsScored matchesPlayed leagueAverage modifier : ℝ) : ℝ :=
  if matchesPlayed = 0 then 1.0
  else goalsScored / matchesPlayed / leagueAverage * modifier

/-- `calculateDefenseStrength` from `predictionEngine.js`. -/
def calculateDefenseStrength (goalsConceded matchesPlayed leagueAverage modifier : ℝ) : ℝ :=
  if matchesPlayed = 0 then 1.0
  else goalsConceded / matchesPlayed / leagueAverage * modifier

/-- `calculateExpectedGoals` from `predictionEngine.js`. -/
def calculateExpectedGoals (attackStrength defenseStrength leagueAverage : ℝ) : ℝ :=
  attackStrength * defenseStrength * leagueAverage

/-- One scoreline cell of the Poisson grid. -/
structure ScoreEntry where
  homeGoals : ℕ
  awayGoals : ℕ
  probability : ℝ

/-- The joint probability `P(homeGoals = h) * P(awayGoals = a)` of one cell. -/
def scoreCell (homeExpectedGoals awayExpectedGoals : ℝ) (h a : ℕ) : ℝ :=
  poissonProbability homeExpectedGoals h * poissonProbability awayExpectedGoals a

/-- The accumulated home-win bucket of the double loop in
`calculateMatchProbabilities`: all cells with `homeGoals > awayGoals`. -/
def homeWinMass (hx ax : ℝ) (maxGoals : ℕ) : ℝ :=
  ∑ h ∈ Finset.range (maxGoals + 1), ∑ a ∈ Finset.range (maxGoals + 1),
    if a < h then scoreCell hx ax h a else 0

/-- The accumulated draw bucket: all cells with `homeGoals = awayGoals`. -/
def drawMass (hx ax : ℝ) (maxGoals : ℕ) : ℝ :=
  ∑ h ∈ Finset.range (maxGoals + 1), ∑ a ∈ Finset.range (maxGoals + 1),
    if a = h then scoreCell hx ax h a else 0

/-- The accumulated away-win bucket: all cells with `homeGoals < awayGoals`. -/
def awayWinMass (hx ax : ℝ) (maxGoals : ℕ) : ℝ :=
  ∑ h ∈ Finset.range (maxGoals + 1), ∑ a ∈ Finset.range (maxGoals + 1),
    if h < a then scoreCell hx ax h a else 0

/-- `total = homeWinProbability + drawProbability + awayWinProbability`. -/
def totalMass (hx ax : ℝ) (maxGoals : ℕ) : ℝ :=
  homeWinMass hx ax maxGoals + drawMass hx ax maxGoals + awayWinMass hx ax maxGoals

/-- The `scoreMatrix` array in push order: the outer loop runs over
`homeGoals`, the inner loop over `awayGoals`. -/
def scoreMatrixList (hx ax : ℝ) (maxGoals : ℕ) : List ScoreEntry :=
  (List.range (maxGoals + 1)).flatMap fun h =>
    (List.range (maxGoals + 1)).map fun a => ⟨h, a, scoreCell hx ax h a⟩

/-- The comparator `(a, b) => b.probability - a.probability` of the
`scoreMatrix.sort` call: `a` sorts no later than `b` exactly when
`b.probability ≤ a.probability`; JavaScript `sort` is stable, as is
`List.mergeSort`. -/
def scoreSortLE (a b : ScoreEntry) : Bool := decide (b.probability ≤ a.probability)

/-- Result record of `calculateMatchProbabilities`.  The three percentage
fields are `none` exactly when the bucket total is `0`, in which case the
JavaScript code computes `0/0 * 100 = NaN` (all three buckets are sums of
non-negative cells, so a zero total forces all three numerators to `0`;
the `±Infinity` branch of `x/0` is unreachable). -/
structure MatchProbabilities where
  homeWin : Option ℝ
  draw : Option ℝ
  awayWin : Option ℝ
  scoreMatrix : List ScoreEntry

/-- `calculateMatchProbabilities` from `predictionEngine.js` (the source
calls it with the default `maxGoals = 10`). -/
def calculateMatchProbabilities (hx ax : ℝ) (maxGoals : ℕ) : MatchProbabilities :=
  let hw := homeWinMass hx ax maxGoals
  let dr := drawMass hx ax maxGoals
  let aw := awayWinMass hx ax maxGoals
  let total := hw + dr + aw
  { homeWin := if total = 0 then none else some (hw / total * 100)
    draw := if total = 0 then none else some (dr / total * 100)
    awayWin := if total = 0 then none else some (aw / total * 100)
    scoreMatrix := ((scoreMatrixList hx ax maxGoals).mergeSort scoreSortLE).take 5 }

/-- Points for one character of a form string: `W` = 3, `D` = 1, else 0. -/
def formResultPoints (c : Char) : ℕ :=
  if c = 'W' then 3 else if c = 'D' then 1 else 0

/-- `calculateFormPoints` from `predictionEngine.js` (the `!form` guard is
handled at the call sites, which model the JavaScript truthiness test). -/
def calculateFormPoints (form : String) : ℕ :=
  (form.toList.map formResultPoints).sum

/-- Team-statistics input record; every field is optional because the
source accesses them defensively (`?.` / `??` or truthiness tests). -/
structure TeamStats where
  name : Option String
  goalsScored : Option ℝ
  goalsConceded : Option ℝ
  matchesPlayed : Option ℝ
  form : Option String
  won : Option ℝ

/-- A JavaScript number that may be one of the non-finite IEEE values.
Only `generateRadarData` needs this: it divides by the raw
`matchesPlayed` and reads possibly-missing fields. -/
inductive JsVal where
  | num (x : ℝ)
  | nan
  | inf
  | ninf
  deriving DecidableEq

/-- A possibly-missing field as a JavaScript number (`undefined` enters
arithmetic as `NaN`). -/
def toJs : Option ℝ → JsVal
  | some x => JsVal.num x
  | none => JsVal.nan

/-- JavaScript division for the value domain of `generateRadarData`:
`a / 0` is `±Infinity` for `a ≠ 0` and `NaN` for `a = 0`. -/
def jsDiv : JsVal → JsVal → JsVal
  | JsVal.nan, _ => JsVal.nan
  | _, JsVal.nan => JsVal.nan
  | JsVal.num a, JsVal.num b =>
      if b = 0 then
        if 0 < a then JsVal.inf else if a < 0 then JsVal.ninf else JsVal.nan
      else JsVal.num (a / b)
  | JsVal.num _, JsVal.inf => JsVal.num 0
  | JsVal.num _, JsVal.ninf => JsVal.num 0
  | JsVal.inf, JsVal.num b => if b < 0 then JsVal.ninf else JsVal.inf
  | JsVal.ninf, JsVal.num b => if b < 0 then JsVal.inf else JsVal.ninf
  | JsVal.inf, JsVal.inf => JsVal.nan
  | JsVal.inf, JsVal.ninf => JsVal.nan
  | JsVal.ninf, JsVal.inf => JsVal.nan
  | JsVal.ninf, JsVal.ninf => JsVal.nan

/-- JavaScript `c - v` for a finite constant `c`. -/
def jsSubFrom (c : ℝ) : JsVal → JsVal
  | JsVal.num a => JsVal.num (c - a)
  | JsVal.nan => JsVal.nan
  | JsVal.inf => JsVal.ninf
  | JsVal.ninf => JsVal.inf

/-- JavaScript `v * c` for a finite constant `c`. -/
def jsMul (v : JsVal) (c : ℝ) : JsVal :=
  match v with
  | JsVal.num a => JsVal.num (a * c)
  | JsVal.nan => JsVal.nan
  | JsVal.inf => if 0 < c then JsVal.inf else if c < 0 then JsVal.ninf else JsVal.nan
  | JsVal.ninf => if 0 < c then JsVal.ninf else if c < 0 then JsVal.inf else JsVal.nan

/-- JavaScript `Math.min(100, v)`. -/
def jsMin100 : JsVal → JsVal
  | JsVal.num a => JsVal.num (min 100 a)
  | JsVal.nan => JsVal.nan
  | JsVal.inf => JsVal.num 100
  | JsVal.ninf => JsVal.ninf

/-- One row of the radar feature vector. -/
structure RadarEntry where
  metric : String
  home : JsVal
  away : JsVal

/-- The form points used by the radar chart: `stats.form` is tested for
truthiness (both a missing and an empty form string give `7.5`). -/
def radarFormPoints (stats : TeamStats) : ℝ :=
  match stats.form with
  | some f => if f = "" then 7.5 else (calculateFormPoints f : ℝ)
  | none => 7.5

/-- The `Consistency` row value: `won` is tested for truthiness (missing
or `0` gives the constant `50`). -/
def radarConsistency (stats : TeamStats) : JsVal :=
  match stats.won with
  | some w =>
      if w = 0 then JsVal.num 50
      else jsMul (jsDiv (JsVal.num w) (toJs stats.matchesPlayed)) 100
  | none => JsVal.num 50

/-- `generateRadarData` from `predictionEngine.js`.  Note that the
`Defense`, `Goals/Game` and `Consistency` rows divide by the raw
`matchesPlayed` field of the input record, not by the clamped value used
for the strength model. -/
def generateRadarData (hs ts : TeamStats) (homeAttack awayAttack : ℝ) : List RadarEntry :=
  [ ⟨"Attack", JsVal.num (min 100 (homeAttack * 50)), JsVal.num (min 100 (awayAttack * 50))⟩,
    ⟨"Defense",
      jsMin100 (jsMul (jsSubFrom 2 (jsDiv (toJs hs.goalsConceded) (toJs hs.matchesPlayed))) 40),
      jsMin100 (jsMul (jsSubFrom 2 (jsDiv (toJs ts.goalsConceded) (toJs ts.matchesPlayed))) 40)⟩,
    ⟨"Form", JsVal.num (radarFormPoints hs / 15 * 100),
      JsVal.num (radarFormPoints ts / 15 * 100)⟩,
    ⟨"Goals/Game",
      jsMin100 (jsMul (jsDiv (toJs hs.goalsScored) (toJs hs.matchesPlayed)) 30),
      jsMin100 (jsMul (jsDiv (toJs ts.goalsScored) (toJs ts.matchesPlayed)) 30)⟩,
    ⟨"Consistency", radarConsistency hs, radarConsistency ts⟩ ]

/-- `calculateConfidence` from `predictionEngine.js`.  When the
percentages are `NaN` every comparison is false and the result is `Low`. -/
def calculateConfidence (p : MatchProbabilities) : String :=
  match p.homeWin, p.draw, p.awayWin with
  | some h, some d, some a =>
      if 55 ≤ max h (max d a) then "High"
      else if 40 ≤ max h (max d a) then "Medium"
      else "Low"
  | _, _, _ => "Low"

/-- The `defaultModifiers` record inside `predictMatch`. -/
def defaultModifiers : Modifiers := ⟨⟨1.0, 1.0, 0.4⟩, ⟨1.0, 1.0, 0.4⟩⟩

/-- `const safeLeagueAverage = (leagueAverage && leagueAverage > 0) ?
leagueAverage : 1.5`. -/
def safeLeagueAverage (leagueAverage : ℝ) : ℝ :=
  if 0 < leagueAverage then leagueAverage else 1.5

/-- The home attack strength computed inside `predictMatch`
(`matchesPlayed` clamped to a minimum of `1`, missing fields defaulting). -/
def homeAttackOf (hs : TeamStats) (L : ℝ) (mods : Modifiers) : ℝ :=
  calculateAttackStrength (hs.goalsScored.getD 0) (max 1 (hs.matchesPlayed.getD 1))
    (safeLeagueAverage L) mods.home.attackMultiplier

/-- The home defense strength computed inside `predictMatch`. -/
def homeDefenseOf (hs : TeamStats) (L : ℝ) (mods : Modifiers) : ℝ :=
  calculateDefenseStrength (hs.goalsConceded.getD 0) (max 1 (hs.matchesPlayed.getD 1))
    (safeLeagueAverage L) mods.home.defenseMultiplier

/-- The away attack strength computed inside `predictMatch`. -/
def awayAttackOf (ts : TeamStats) (L : ℝ) (mods : Modifiers) : ℝ :=
  calculateAttackStrength (ts.goalsScored.getD 0) (max 1 (ts.matchesPlayed.getD 1))
    (safeLeagueAverage L) mods.away.attackMultiplier

/-- The away defense strength computed inside `predictMatch`. -/
def awayDefenseOf (ts : TeamStats) (L : ℝ) (mods : Modifiers) : ℝ :=
  calculateDefenseStrength (ts.goalsConceded.getD 0) (max 1 (ts.matchesPlayed.getD 1))
    (safeLeagueAverage L) mods.away.defenseMultiplier

/-- `homeExpectedGoals = homeAttackStrength × awayDefenseStrength × league`. -/
def homeXGOf (hs ts : TeamStats) (L : ℝ) (mods : Modifiers) : ℝ :=
  calculateExpectedGoals (homeAttackOf hs L mods) (awayDefenseOf ts L mods)
    (safeLeagueAverage L)

/-- `awayExpectedGoals = awayAttackStrength × homeDefenseStrength × league`. -/
def awayXGOf (hs ts : TeamStats) (L : ℝ) (mods : Modifiers) : ℝ :=
  calculateExpectedGoals (awayAttackOf ts L mods) (homeDefenseOf hs L mods)
    (safeLeagueAverage L)

/-- Decimal fair odds produced from the three (unrounded) percentages. -/
structure FairOdds where
  home : Option ℝ
  draw : Option ℝ
  away : Option ℝ

/-- Rounded expected goals of the result object. -/
structure ExpectedGoalsOut where
  home : ℝ
  away : ℝ

/-- Rounded strength scalars of the result object. -/
structure Strengths where
  homeAttack : ℝ
  awayAttack : ℝ
  homeDefense : ℝ
  awayDefense : ℝ

/-- The `PredictionResult` object returned by `predictMatch` (the
`insights` list of natural-language strings is not modelled: no claim
refers to it and its construction performs no fallible computation). -/
structure PredictionResult where
  homeWin : Option ℝ
  draw : Option ℝ
  awayWin : Option ℝ
  fairOdds : FairOdds
  expectedGoals : ExpectedGoalsOut
  strengths : Strengths
  likelyScores : List ScoreEntry
  confidence : String
  radarData : List RadarEntry

/-- The body of `predictMatch` after the input-validation throw: both
statistics records are present. -/
def predictCore (hs ts : TeamStats) (L : ℝ) (modifiers : Option Modifiers) : PredictionResult :=
  let mods := modifiers.getD defaultModifiers
  let probs := calculateMatchProbabilities (homeXGOf hs ts L mods) (awayXGOf hs ts L mods) 10
  { homeWin := probs.homeWin.map jsRound1
    draw := probs.draw.map jsRound1
    awayWin := probs.awayWin.map jsRound1
    fairOdds := ⟨probs.homeWin.map probabilityToDecimal,
                 probs.draw.map probabilityToDecimal,
                 probs.awayWin.map probabilityToDecimal⟩
    expectedGoals := ⟨jsRound2 (homeXGOf hs ts L mods), jsRound2 (awayXGOf hs ts L mods)⟩
    strengths := ⟨jsRound2 (homeAttackOf hs L mods), jsRound2 (awayAttackOf ts L mods),
                  jsRound2 (homeDefenseOf hs L mods), jsRound2 (awayDefenseOf ts L mods)⟩
    likelyScores := probs.scoreMatrix.map fun s =>
      ⟨s.homeGoals, s.awayGoals, jsRoundScore s.probability⟩
    confidence := calculateConfidence probs
    radarData := generateRadarData hs ts (homeAttackOf hs L mods) (awayAttackOf ts L mods) }

/-- The error message of the input-validation throw in `predictMatch`. -/
def missingStatsError : String := "Missing team statistics. Cannot generate prediction."

/-- `predictMatch` from `predictionEngine.js`: throws exactly when a
statistics record is absent (`!homeTeamStats || !awayTeamStats`), and
otherwise runs the pure pipeline `predictCore`. -/
def predictMatch (homeTeamStats awayTeamStats : Option TeamStats) (L : ℝ)
    (modifiers : Option Modifiers) : Except String PredictionResult :=
  match homeTeamStats, awayTeamStats with
  | some hs, some ts => Except.ok (predictCore hs ts L modifiers)
  | none, _ => Except.error missingStatsError
  | some _, none => Except.error missingStatsError

/-- Swap the two sides of a modifier record. -/
def swapModifiers (m : Modifiers) : Modifiers := ⟨m.away, m.home⟩

/-- Swap the two sides of an optional modifier record (`null` stays
`null`, and the defaults are symmetric). -/
def swapOptModifiers (m : Option Modifiers) : Option Modifiers :=
  m.map swapModifiers

/-- The defense-strength radar value that the specification describes:
the league-normalized defense strength of the Poisson model, inverted and
scaled by `(2 − defenseStrength) × 40` and capped at `100`.  Modelled
from the spec for comparison with the source. -/
def specDefenseRadar (goalsConceded matchesPlayed leagueAverage modifier : ℝ) : ℝ :=
  min 100 ((2 - calculateDefenseStrength goalsConceded matchesPlayed leagueAverage modifier) * 40)

end

/-! ## Theorems -/

/-- C1: the claim states that with `homeKeyPlayerMissing = true` and every
other parameter at its neutral default, the resolved home attack
multiplier is `0.7`.  In the source the weather step multiplies the home
attack by `max 0.8 (weatherFactor * 0.9) = 0.9` even at the neutral
`weatherImpact = 0`, so the resolved multiplier is `0.7 * 0.9 = 0.63`,
not `0.7`. -/
theorem c1_counterexample :
    (calculateModifiers ⟨true, false, false, 40, 100, 100, 0, "balanced", "balanced"⟩).home.attackMultiplier ≠ 0.7 := by
  have hbal : tacticalStyleFor "balanced" = ⟨1.0, 1.0⟩ := by simp [tacticalStyleFor]
  simp only [calculateModifiers, hbal]
  norm_num [max_def]

/-- C1 (amended): with `homeKeyPlayerMissing = true` and every other
parameter at its neutral default, the resolved home attack multiplier is
`0.63`: the `0.7` key-player factor is further damped by the neutral
weather home factor `max 0.8 (1 * 0.9) = 0.9`. -/
theorem c1_amended :
    (calculateModifiers ⟨true, false, false, 40, 100, 100, 0, "balanced", "balanced"⟩).home.attackMultiplier = 0.63 := by
  have hbal : tacticalStyleFor "balanced" = ⟨1.0, 1.0⟩ := by simp [tacticalStyleFor]
  simp only [calculateModifiers, hbal]
  norm_num [max_def]

/-- C2: when both expected-goal values are `0`, every Poisson factor is
`0`, the bucket total is `0`, and the outcome engine normalises by
`0/0`: all three percentages are `NaN` (modelled as `none`), not the
defined `0/0/0` output the claim describes. -/
theorem c2_nan_at_zero_lambdas :
    (calculateMatchProbabilities 0 0 10).homeWin = none
    ∧ (calculateMatchProbabilities 0 0 10).draw = none
    ∧ (calculateMatchProbabilities 0 0 10).awayWin = none := by
  refine ⟨?_, ?_, ?_⟩ <;>
    simp [calculateMatchProbabilities, homeWinMass, drawMass, awayWinMass,
      scoreCell, poissonProbability]

/-- C6: `predictMatch` raises its single invalid-input error exactly when
a team-statistics record is absent, and on any pair of supplied records
(whatever their field values, the league average, or the modifiers) it
returns the pure pipeline result and never raises. -/
theorem c6_raises_iff_absent :
    ∀ (hs ts : TeamStats) (L : ℝ) (mods : Option Modifiers),
      predictMatch (some hs) (some ts) L mods = Except.ok (predictCore hs ts L mods)
      ∧ predictMatch none (some ts) L mods = Except.error missingStatsError
      ∧ predictMatch (some hs) none L mods = Except.error missingStatsError
      ∧ predictMatch none none L mods = Except.error missingStatsError :=
  fun _ _ _ _ => ⟨rfl, rfl, rfl, rfl⟩

/-- C7: with `matchesPlayed = 0` (and `goalsScored = 2`,
`goalsConceded = 3`, no form, no win count) the radar vector of the
returned prediction is evaluated in full: the `Defense` entry is
`-Infinity`, the direct result of the unclamped division
`goalsConceded / matchesPlayed = 3 / 0` inside `generateRadarData` —
contradicting the claim that every division by `matchesPlayed` is
performed on a value clamped to a minimum of `1`. -/
theorem c7_radar_division_by_zero :
    ((predictCore ⟨none, some 2, some 3, some 0, none, none⟩
        ⟨none, some 2, some 3, some 0, none, none⟩ 1.5 none).radarData.map RadarEntry.home)
      = [JsVal.num (200/3), JsVal.ninf, JsVal.num 50, JsVal.num 100, JsVal.num 50] := by
  simp only [predictCore, generateRadarData, radarFormPoints, radarConsistency, toJs,
    jsDiv, jsSubFrom, jsMul, jsMin100, homeAttackOf, awayAttackOf, calculateAttackStrength,
    safeLeagueAverage, defaultModifiers, Option.getD, List.map]
  norm_num [min_def]

/-- C9: at `goalsConceded = 3`, `matchesPlayed = 2`, league average
`1.5` and neutral modifiers the code's radar `Defense` value is
`min 100 ((2 - 3/2) * 40) = 20` — the raw conceded-per-game rate — while
the claim's formula over the league-normalized defense strength
`(3/2)/1.5 = 1` gives `min 100 ((2 - 1) * 40) = 40`. -/
theorem c9_counterexample :
    (((predictCore ⟨none, some 2, some 3, some 2, none, none⟩
        ⟨none, some 2, some 3, some 2, none, none⟩ 1.5 none).radarData.map RadarEntry.home)[1]?
      = some (JsVal.num 20))
    ∧ specDefenseRadar 3 2 1.5 1 = 40
    ∧ JsVal.num 20 ≠ JsVal.num (specDefenseRadar 3 2 1.5 1) := by
  refine ⟨?_, ?_, ?_⟩
  · simp only [predictCore, generateRadarData, radarFormPoints, radarConsistency, toJs,
      jsDiv, jsSubFrom, jsMul, jsMin100, List.map]
    norm_num [min_def]
  · norm_num [specDefenseRadar, calculateDefenseStrength, min_def]
  · norm_num [specDefenseRadar, calculateDefenseStrength, min_def]

/-- C9 (amended): for every prediction whose team records carry a
goals-conceded count and a non-zero matches-played count, each team's
radar `Defense` value equals `min 100 ((2 - c/p) * 40)` where `c/p` is
that team's raw goals-conceded-per-match rate — with no league-average
normalization, no defense multiplier, and no clamping of `p`. -/
theorem c9_amended :
    ∀ (hs ts : TeamStats) (L : ℝ) (mods : Option Modifiers) (g p g2 p2 : ℝ),
      hs.goalsConceded = some g → hs.matchesPlayed = some p → p ≠ 0 →
      ts.goalsConceded = some g2 → ts.matchesPlayed = some p2 → p2 ≠ 0 →
      ((predictCore hs ts L mods).radarData)[1]?
        = some ⟨"Defense", JsVal.num (min 100 ((2 - g / p) * 40)),
                JsVal.num (min 100 ((2 - g2 / p2) * 40))⟩ := by
  intro hs ts L mods g p g2 p2 hg hp hpz hg2 hp2 hpz2
  simp [predictCore, generateRadarData, toJs, hg, hp, hg2, hp2, jsDiv, hpz, hpz2,
    jsSubFrom, jsMul, jsMin100]

/-- C9 witness: the amended theorem applied at the concrete record with
`goalsConceded = 3`, `matchesPlayed = 2`. -/
theorem c9_witness :
    ((⟨none, some 2, some 3, some 2, none, none⟩ : TeamStats).goalsConceded = some 3
      ∧ (2 : ℝ) ≠ 0)
    ∧ ((predictCore ⟨none, some 2, some 3, some 2, none, none⟩
          ⟨none, some 2, some 3, some 2, none, none⟩ 1.5 none).radarData)[1]?
        = some ⟨"Defense", JsVal.num (min 100 ((2 - 3 / 2) * 40)),
                JsVal.num (min 100 ((2 - 3 / 2) * 40))⟩ :=
  ⟨⟨rfl, by norm_num⟩,
    c9_amended ⟨none, some 2, some 3, some 2, none, none⟩
      ⟨none, some 2, some 3, some 2, none, none⟩ 1.5 none 3 2 3 2
      rfl rfl (by norm_num) rfl rfl (by norm_num)⟩

/-- C10: at bookmaker odds `4` and model odds `2` the code's edge is
`modelProbability - bookieProbability = 50 - 25 = 25`, not the
claim's `bookieProbability - modelProbability = -25`. -/
theorem c10_counterexample :
    (detectValue 4 2).edge ≠ decimalToProbability 4 - decimalToProbability 2 := by
  have h4 : decimalToProbability 4 = 25 := by
    norm_num [decimalToProbability, jsToFixed2]
  have h2 : decimalToProbability 2 = 50 := by
    norm_num [decimalToProbability, jsToFixed2]
  have he : (detectValue 4 2).edge = 25 := by
    norm_num [detectValue, h4, h2, jsToFixed2]
  rw [he, h4, h2]
  norm_num

/-- C10 (amended): for positive bookmaker and model decimal odds,
`detectValue` reports `hasValue = true` exactly when the bookmaker odds
exceed the model odds, its edge is the model-implied minus the
bookmaker-implied probability percentage (the opposite sign of the
claim's wording), and at exactly-fair bookmaker odds it reports
`hasValue = false` with edge `0`. -/
theorem c10_amended :
    ∀ b m : ℝ, 0 < b → 0 < m →
      (((detectValue b m).hasValue = true) ↔ m < b)
      ∧ (detectValue b m).edge
          = jsToFixed2 (decimalToProbability m - decimalToProbability b)
      ∧ (b = m → (detectValue b m).hasValue = false ∧ (detectValue b m).edge = 0) := by
  intro b m hb hm
  have hb0 : b ≠ 0 := ne_of_gt hb
  have hm0 : m ≠ 0 := ne_of_gt hm
  refine ⟨?_, ?_, ?_⟩
  · simp [detectValue, hb0, hm0]
  · simp [detectValue, hb0, hm0]
  · intro hbm
    subst hbm
    constructor
    · simp [detectValue, hb0]
    · simp only [detectValue, hb0, hm0, or_self, if_neg hb0]
      norm_num [jsToFixed2]

/-- C10 witness: the amended theorem applied at bookmaker odds `4`,
model odds `2`. -/
theorem c10_witness :
    (0 < (4 : ℝ) ∧ 0 < (2 : ℝ))
    ∧ ((((detectValue 4 2).hasValue = true) ↔ (2 : ℝ) < 4)
      ∧ (detectValue 4 2).edge
          = jsToFixed2 (decimalToProbability 2 - decimalToProbability 4)
      ∧ ((4 : ℝ) = 2 → (detectValue 4 2).hasValue = false ∧ (detectValue 4 2).edge = 0)) :=
  ⟨⟨by norm_num, by norm_num⟩, c10_amended 4 2 (by norm_num) (by norm_num)⟩

/-! ## Shared facts about the Poisson grid -/

theorem factorial_pos (n : ℕ) : 0 < factorial n := by
  induction n with
  | zero => simp [factorial]
  | succ n ih => simpa [factorial] using Nat.mul_pos (Nat.succ_pos n) ih

theorem poissonProbability_nonneg (l : ℝ) (k : ℕ) : 0 ≤ poissonProbability l k := by
  unfold poissonProbability
  split
  · exact le_refl 0
  · have hf : (0 : ℝ) < (factorial k : ℝ) := by exact_mod_cast factorial_pos k
    have hl : 0 < l := lt_of_not_le (by assumption)
    positivity

theorem poissonProbability_pos {l : ℝ} (hl : 0 < l) (k : ℕ) : 0 < poissonProbability l k := by
  unfold poissonProbability
  rw [if_neg (not_le.mpr hl)]
  have hf : (0 : ℝ) < (factorial k : ℝ) := by exact_mod_cast factorial_pos k
  positivity

theorem scoreCell_nonneg (hx ax : ℝ) (h a : ℕ) : 0 ≤ scoreCell hx ax h a :=
  mul_nonneg (poissonProbability_nonneg hx h) (poissonProbability_nonneg ax a)

theorem scoreCell_pos {hx ax : ℝ} (hhx : 0 < hx) (hax : 0 < ax) (h a : ℕ) :
    0 < scoreCell hx ax h a :=
  mul_pos (poissonProbability_pos hhx h) (poissonProbability_pos hax a)

theorem homeWinMass_nonneg (hx ax : ℝ) (mg : ℕ) : 0 ≤ homeWinMass hx ax mg := by
  refine Finset.sum_nonneg fun h _ => Finset.sum_nonneg fun a _ => ?_
  split
  · exact scoreCell_nonneg hx ax h a
  · exact le_refl 0

theorem drawMass_nonneg (hx ax : ℝ) (mg : ℕ) : 0 ≤ drawMass hx ax mg := by
  refine Finset.sum_nonneg fun h _ => Finset.sum_nonneg fun a _ => ?_
  split
  · exact scoreCell_nonneg hx ax h a
  · exact le_refl 0

theorem awayWinMass_nonneg (hx ax : ℝ) (mg : ℕ) : 0 ≤ awayWinMass hx ax mg := by
  refine Finset.sum_nonneg fun h _ => Finset.sum_nonneg fun a _ => ?_
  split
  · exact scoreCell_nonneg hx ax h a
  · exact le_refl 0

theorem drawMass_pos {hx ax : ℝ} (hhx : 0 < hx) (hax : 0 < ax) (mg : ℕ) :
    0 < drawMass hx ax mg := by
  refine Finset.sum_pos' (fun h _ => Finset.sum_nonneg fun a _ => ?_) ?_
  · split
    · exact scoreCell_nonneg hx ax h a
    · exact le_refl 0
  · refine ⟨0, Finset.mem_range.mpr (Nat.succ_pos mg), ?_⟩
    refine Finset.sum_pos' (fun a _ => ?_) ⟨0, Finset.mem_range.mpr (Nat.succ_pos mg), ?_⟩
    · split
      · exact scoreCell_nonneg hx ax 0 a
      · exact le_refl 0
    · simpa using (scoreCell_pos hhx hax 0 0).le.lt_of_ne (ne_of_gt (scoreCell_pos hhx hax 0 0)).symm

theorem totalMass_pos {hx ax : ℝ} (hhx : 0 < hx) (hax : 0 < ax) (mg : ℕ) :
    0 < totalMass hx ax mg := by
  have h1 := homeWinMass_nonneg hx ax mg
  have h2 := drawMass_pos hhx hax mg
  have h3 := awayWinMass_nonneg hx ax mg
  unfold totalMass
  linarith

theorem homeWinMass_of_nonpos_right {ax : ℝ} (hax : ax ≤ 0) (hx : ℝ) (mg : ℕ) :
    homeWinMass hx ax mg = 0 := by
  simp [homeWinMass, scoreCell, poissonProbability, if_pos hax]

theorem drawMass_of_nonpos_right {ax : ℝ} (hax : ax ≤ 0) (hx : ℝ) (mg : ℕ) :
    drawMass hx ax mg = 0 := by
  simp [drawMass, scoreCell, poissonProbability, if_pos hax]

theorem awayWinMass_of_nonpos_right {ax : ℝ} (hax : ax ≤ 0) (hx : ℝ) (mg : ℕ) :
    awayWinMass hx ax mg = 0 := by
  simp [awayWinMass, scoreCell, poissonProbability, if_pos hax]

theorem predictCore_homeWin_eq (hs ts : TeamStats) (L : ℝ) (mods : Option Modifiers) :
    (predictCore hs ts L mods).homeWin
      = ((calculateMatchProbabilities (homeXGOf hs ts L (mods.getD defaultModifiers))
          (awayXGOf hs ts L (mods.getD defaultModifiers)) 10).homeWin).map jsRound1 := rfl

theorem predictCore_draw_eq (hs ts : TeamStats) (L : ℝ) (mods : Option Modifiers) :
    (predictCore hs ts L mods).draw
      = ((calculateMatchProbabilities (homeXGOf hs ts L (mods.getD defaultModifiers))
          (awayXGOf hs ts L (mods.getD defaultModifiers)) 10).draw).map jsRound1 := rfl

theorem predictCore_awayWin_eq (hs ts : TeamStats) (L : ℝ) (mods : Option Modifiers) :
    (predictCore hs ts L mods).awayWin
      = ((calculateMatchProbabilities (homeXGOf hs ts L (mods.getD defaultModifiers))
          (awayXGOf hs ts L (mods.getD defaultModifiers)) 10).awayWin).map jsRound1 := rfl

theorem predictCore_likelyScores_eq (hs ts : TeamStats) (L : ℝ) (mods : Option Modifiers) :
    (predictCore hs ts L mods).likelyScores
      = ((calculateMatchProbabilities (homeXGOf hs ts L (mods.getD defaultModifiers))
          (awayXGOf hs ts L (mods.getD defaultModifiers)) 10).scoreMatrix).map
          (fun s => ⟨s.homeGoals, s.awayGoals, jsRoundScore s.probability⟩) := rfl

theorem engine_homeWin_of_total_ne (hx ax : ℝ) (mg : ℕ)
    (hT : homeWinMass hx ax mg + drawMass hx ax mg + awayWinMass hx ax mg ≠ 0) :
    (calculateMatchProbabilities hx ax mg).homeWin
      = some (homeWinMass hx ax mg
          / (homeWinMass hx ax mg + drawMass hx ax mg + awayWinMass hx ax mg) * 100) := by
  simp [calculateMatchProbabilities, hT]

theorem engine_draw_of_total_ne (hx ax : ℝ) (mg : ℕ)
    (hT : homeWinMass hx ax mg + drawMass hx ax mg + awayWinMass hx ax mg ≠ 0) :
    (calculateMatchProbabilities hx ax mg).draw
      = some (drawMass hx ax mg
          / (homeWinMass hx ax mg + drawMass hx ax mg + awayWinMass hx ax mg) * 100) := by
  simp [calculateMatchProbabilities, hT]

theorem engine_awayWin_of_total_ne (hx ax : ℝ) (mg : ℕ)
    (hT : homeWinMass hx ax mg + drawMass hx ax mg + awayWinMass hx ax mg ≠ 0) :
    (calculateMatchProbabilities hx ax mg).awayWin
      = some (awayWinMass hx ax mg
          / (homeWinMass hx ax mg + drawMass hx ax mg + awayWinMass hx ax mg) * 100) := by
  simp [calculateMatchProbabilities, hT]

theorem engine_percentages_sum (hx ax : ℝ) (mg : ℕ) (p1 p2 p3 : ℝ)
    (h1 : (calculateMatchProbabilities hx ax mg).homeWin = some p1)
    (h2 : (calculateMatchProbabilities hx ax mg).draw = some p2)
    (h3 : (calculateMatchProbabilities hx ax mg).awayWin = some p3) :
    p1 + p2 + p3 = 100 := by
  by_cases hT : homeWinMass hx ax mg + drawMass hx ax mg + awayWinMass hx ax mg = 0
  · rw [show (calculateMatchProbabilities hx ax mg).homeWin = none by
      simp [calculateMatchProbabilities, hT]] at h1
    exact absurd h1 (by simp)
  · rw [engine_homeWin_of_total_ne hx ax mg hT] at h1
    rw [engine_draw_of_total_ne hx ax mg hT] at h2
    rw [engine_awayWin_of_total_ne hx ax mg hT] at h3
    have e1 := Option.some_injective ℝ h1.symm
    have e2 := Option.some_injective ℝ h2.symm
    have e3 := Option.some_injective ℝ h3.symm
    rw [e1, e2, e3]
    field_simp
    ring

theorem jsRound1_sum_approx (x y z : ℝ) (hsum : x + y + z = 100) :
    |jsRound1 x + jsRound1 y + jsRound1 z - 100| ≤ 0.1 := by
  unfold jsRound1
  have h1l : ((⌊x * 10 + 1/2⌋ : ℤ) : ℝ) ≤ x * 10 + 1/2 := Int.floor_le _
  have h1u : x * 10 + 1/2 < (⌊x * 10 + 1/2⌋ : ℤ) + 1 := Int.lt_floor_add_one _
  have h2l : ((⌊y * 10 + 1/2⌋ : ℤ) : ℝ) ≤ y * 10 + 1/2 := Int.floor_le _
  have h2u : y * 10 + 1/2 < (⌊y * 10 + 1/2⌋ : ℤ) + 1 := Int.lt_floor_add_one _
  have h3l : ((⌊z * 10 + 1/2⌋ : ℤ) : ℝ) ≤ z * 10 + 1/2 := Int.floor_le _
  have h3u : z * 10 + 1/2 < (⌊z * 10 + 1/2⌋ : ℤ) + 1 := Int.lt_floor_add_one _
  have hub : ⌊x * 10 + 1/2⌋ + ⌊y * 10 + 1/2⌋ + ⌊z * 10 + 1/2⌋ ≤ 1001 := by
    have : ((⌊x * 10 + 1/2⌋ + ⌊y * 10 + 1/2⌋ + ⌊z * 10 + 1/2⌋ : ℤ) : ℝ) < 1002 := by
      push_cast
      linarith
    exact_mod_cast Int.lt_add_one_iff.mp (by exact_mod_cast this)
  have hlb : 999 ≤ ⌊x * 10 + 1/2⌋ + ⌊y * 10 + 1/2⌋ + ⌊z * 10 + 1/2⌋ := by
    have : (998 : ℝ) < ((⌊x * 10 + 1/2⌋ + ⌊y * 10 + 1/2⌋ + ⌊z * 10 + 1/2⌋ : ℤ) : ℝ) := by
      push_cast
      linarith
    exact Int.lt_iff_add_one_le.mp (by exact_mod_cast this)
  have hu : ((⌊x * 10 + 1/2⌋ + ⌊y * 10 + 1/2⌋ + ⌊z * 10 + 1/2⌋ : ℤ) : ℝ) ≤ 1001 := by
    exact_mod_cast hub
  have hl : (999 : ℝ) ≤ ((⌊x * 10 + 1/2⌋ + ⌊y * 10 + 1/2⌋ + ⌊z * 10 + 1/2⌋ : ℤ) : ℝ) := by
    exact_mod_cast hlb
  rw [abs_le]
  push_cast at hu hl
  constructor
  · norm_num
    linarith
  · norm_num
    linarith

/-- C3: the claim only excludes the case of both expected-goal values
being zero, but the Poisson cell `P(k | λ)` is defined as `0` for every
`k` when `λ ≤ 0` — including `P(0 | 0)` — so already one zero expected
goal makes the whole grid zero and the normalised percentages `NaN`:
home record `{goalsScored: 3, goalsConceded: 0, matchesPlayed: 2}`,
away record `{goalsScored: 0, goalsConceded: 3, matchesPlayed: 2}` gives
`λ_home = 1.5`, `λ_away = 0`, which is not both zero, yet `homeWin` is
`NaN` rather than part of a sum near `100`. -/
theorem c3_counterexample :
    homeXGOf ⟨none, some 3, some 0, some 2, none, none⟩
        ⟨none, some 0, some 3, some 2, none, none⟩ 1.5 defaultModifiers = 1.5
    ∧ awayXGOf ⟨none, some 3, some 0, some 2, none, none⟩
        ⟨none, some 0, some 3, some 2, none, none⟩ 1.5 defaultModifiers = 0
    ∧ (predictCore ⟨none, some 3, some 0, some 2, none, none⟩
        ⟨none, some 0, some 3, some 2, none, none⟩ 1.5 none).homeWin = none := by
  have hax : awayXGOf ⟨none, some 3, some 0, some 2, none, none⟩
      ⟨none, some 0, some 3, some 2, none, none⟩ 1.5 defaultModifiers = 0 := by
    norm_num [awayXGOf, awayAttackOf, homeDefenseOf, calculateAttackStrength,
      calculateDefenseStrength, calculateExpectedGoals, safeLeagueAverage,
      defaultModifiers, max_def]
  refine ⟨?_, hax, ?_⟩
  · norm_num [homeXGOf, homeAttackOf, awayDefenseOf, calculateAttackStrength,
      calculateDefenseStrength, calculateExpectedGoals, safeLeagueAverage,
      defaultModifiers, max_def]
  · rw [predictCore_homeWin_eq]
    simp only [Option.getD_none, hax]
    simp [calculateMatchProbabilities, homeWinMass_of_nonpos_right le_rfl,
      drawMass_of_nonpos_right le_rfl, awayWinMass_of_nonpos_right le_rfl]

/-- C3 (amended): whenever the three outcome percentages of a prediction
are actually numbers (equivalently, whenever the Poisson grid total is
non-zero, which requires both expected-goal values to be positive), the
percentages rounded to one decimal sum to `100` within `±0.1`. -/
theorem c3_amended (hs ts : TeamStats) (L : ℝ) (mods : Option Modifiers) (hw d aw : ℝ)
    (hhw : (predictCore hs ts L mods).homeWin = some hw)
    (hd : (predictCore hs ts L mods).draw = some d)
    (haw : (predictCore hs ts L mods).awayWin = some aw) :
    |hw + d + aw - 100| ≤ 0.1 := by
  rw [predictCore_homeWin_eq] at hhw
  rw [predictCore_draw_eq] at hd
  rw [predictCore_awayWin_eq] at haw
  obtain ⟨p1, hp1, hr1⟩ := Option.map_eq_some'.mp hhw
  obtain ⟨p2, hp2, hr2⟩ := Option.map_eq_some'.mp hd
  obtain ⟨p3, hp3, hr3⟩ := Option.map_eq_some'.mp haw
  have hsum := engine_percentages_sum _ _ _ p1 p2 p3 hp1 hp2 hp3
  rw [← hr1, ← hr2, ← hr3]
  exact jsRound1_sum_approx p1 p2 p3 hsum

/-- C3 witness: a concrete prediction (both records `{goalsScored: 3,
goalsConceded: 3, matchesPlayed: 2}`, league average `1.5`, no
modifiers) whose three percentages are defined, with the amended theorem
applied to them. -/
theorem c3_witness :
    ((predictCore ⟨none, some 3, some 3, some 2, none, none⟩
        ⟨none, some 3, some 3, some 2, none, none⟩ 1.5 none).homeWin
      = some (jsRound1 (homeWinMass 1.5 1.5 10
          / (homeWinMass 1.5 1.5 10 + drawMass 1.5 1.5 10 + awayWinMass 1.5 1.5 10) * 100))
    ∧ (predictCore ⟨none, some 3, some 3, some 2, none, none⟩
        ⟨none, some 3, some 3, some 2, none, none⟩ 1.5 none).draw
      = some (jsRound1 (drawMass 1.5 1.5 10
          / (homeWinMass 1.5 1.5 10 + drawMass 1.5 1.5 10 + awayWinMass 1.5 1.5 10) * 100))
    ∧ (predictCore ⟨none, some 3, some 3, some 2, none, none⟩
        ⟨none, some 3, some 3, some 2, none, none⟩ 1.5 none).awayWin
      = some (jsRound1 (awayWinMass 1.5 1.5 10
          / (homeWinMass 1.5 1.5 10 + drawMass 1.5 1.5 10 + awayWinMass 1.5 1.5 10) * 100)))
    ∧ |jsRound1 (homeWinMass 1.5 1.5 10
          / (homeWinMass 1.5 1.5 10 + drawMass 1.5 1.5 10 + awayWinMass 1.5 1.5 10) * 100)
        + jsRound1 (drawMass 1.5 1.5 10
          / (homeWinMass 1.5 1.5 10 + drawMass 1.5 1.5 10 + awayWinMass 1.5 1.5 10) * 100)
        + jsRound1 (awayWinMass 1.5 1.5 10
          / (homeWinMass 1.5 1.5 10 + drawMass 1.5 1.5 10 + awayWinMass 1.5 1.5 10) * 100)
        - 100| ≤ 0.1 := by
  have hxg : homeXGOf ⟨none, some 3, some 3, some 2, none, none⟩
      ⟨none, some 3, some 3, some 2, none, none⟩ 1.5 defaultModifiers = 1.5 := by
    norm_num [homeXGOf, homeAttackOf, awayDefenseOf, calculateAttackStrength,
      calculateDefenseStrength, calculateExpectedGoals, safeLeagueAverage,
      defaultModifiers, max_def]
  have haxg : awayXGOf ⟨none, some 3, some 3, some 2, none, none⟩
      ⟨none, some 3, some 3, some 2, none, none⟩ 1.5 defaultModifiers = 1.5 := by
    norm_num [awayXGOf, awayAttackOf, homeDefenseOf, calculateAttackStrength,
      calculateDefenseStrength, calculateExpectedGoals, safeLeagueAverage,
      defaultModifiers, max_def]
  have hT : homeWinMass 1.5 1.5 10 + drawMass 1.5 1.5 10 + awayWinMass 1.5 1.5 10 ≠ 0 := by
    have := totalMass_pos (show (0 : ℝ) < 1.5 by norm_num) (show (0 : ℝ) < 1.5 by norm_num) 10
    unfold totalMass at this
    exact this.ne'
  have h1 : (predictCore ⟨none, some 3, some 3, some 2, none, none⟩
      ⟨none, some 3, some 3, some 2, none, none⟩ 1.5 none).homeWin
      = some (jsRound1 (homeWinMass 1.5 1.5 10
          / (homeWinMass 1.5 1.5 10 + drawMass 1.5 1.5 10 + awayWinMass 1.5 1.5 10) * 100)) := by
    rw [predictCore_homeWin_eq]
    simp only [Option.getD_none, hxg, haxg]
    rw [engine_homeWin_of_total_ne _ _ _ hT]
    rfl
  have h2 : (predictCore ⟨none, some 3, some 3, some 2, none, none⟩
      ⟨none, some 3, some 3, some 2, none, none⟩ 1.5 none).draw
      = some (jsRound1 (drawMass 1.5 1.5 10
          / (homeWinMass 1.5 1.5 10 + drawMass 1.5 1.5 10 + awayWinMass 1.5 1.5 10) * 100)) := by
    rw [predictCore_draw_eq]
    simp only [Option.getD_none, hxg, haxg]
    rw [engine_draw_of_total_ne _ _ _ hT]
    rfl
  have h3 : (predictCore ⟨none, some 3, some 3, some 2, none, none⟩
      ⟨none, some 3, some 3, some 2, none, none⟩ 1.5 none).awayWin
      = some (jsRound1 (awayWinMass 1.5 1.5 10
          / (homeWinMass 1.5 1.5 10 + drawMass 1.5 1.5 10 + awayWinMass 1.5 1.5 10) * 100)) := by
    rw [predictCore_awayWin_eq]
    simp only [Option.getD_none, hxg, haxg]
    rw [engine_awayWin_of_total_ne _ _ _ hT]
    rfl
  exact ⟨⟨h1, h2, h3⟩, c3_amended _ _ 1.5 none _ _ _ h1 h2 h3⟩

/-! ## Symmetry of the Poisson grid -/

theorem homeWinMass_swap (hx ax : ℝ) (mg : ℕ) :
    homeWinMass ax hx mg = awayWinMass hx ax mg := by
  unfold homeWinMass awayWinMass
  rw [Finset.sum_comm]
  refine Finset.sum_congr rfl fun x _ => Finset.sum_congr rfl fun y _ => ?_
  by_cases hxy : x < y
  · simp [hxy, scoreCell, mul_comm]
  · simp [hxy]

theorem drawMass_swap (hx ax : ℝ) (mg : ℕ) :
    drawMass ax hx mg = drawMass hx ax mg := by
  unfold drawMass
  rw [Finset.sum_comm]
  refine Finset.sum_congr rfl fun x _ => Finset.sum_congr rfl fun y _ => ?_
  by_cases hxy : x = y
  · subst hxy
    simp [scoreCell, mul_comm]
  · rw [if_neg hxy, if_neg (fun h : y = x => hxy h.symm)]

theorem engine_homeWin_swap (hx ax : ℝ) (mg : ℕ) :
    (calculateMatchProbabilities ax hx mg).homeWin
      = (calculateMatchProbabilities hx ax mg).awayWin := by
  simp only [calculateMatchProbabilities]
  rw [homeWinMass_swap hx ax mg, drawMass_swap hx ax mg, ← homeWinMass_swap ax hx mg]
  have hcomm : awayWinMass hx ax mg + drawMass hx ax mg + homeWinMass hx ax mg
      = homeWinMass hx ax mg + drawMass hx ax mg + awayWinMass hx ax mg := by ring
  rw [hcomm]

theorem engine_awayWin_swap (hx ax : ℝ) (mg : ℕ) :
    (calculateMatchProbabilities ax hx mg).awayWin
      = (calculateMatchProbabilities hx ax mg).homeWin := by
  simp only [calculateMatchProbabilities]
  rw [homeWinMass_swap hx ax mg, drawMass_swap hx ax mg, ← homeWinMass_swap ax hx mg]
  have hcomm : awayWinMass hx ax mg + drawMass hx ax mg + homeWinMass hx ax mg
      = homeWinMass hx ax mg + drawMass hx ax mg + awayWinMass hx ax mg := by ring
  rw [hcomm]

theorem engine_draw_swap (hx ax : ℝ) (mg : ℕ) :
    (calculateMatchProbabilities ax hx mg).draw
      = (calculateMatchProbabilities hx ax mg).draw := by
  simp only [calculateMatchProbabilities]
  rw [homeWinMass_swap hx ax mg, drawMass_swap hx ax mg, ← homeWinMass_swap ax hx mg]
  have hcomm : awayWinMass hx ax mg + drawMass hx ax mg + homeWinMass hx ax mg
      = homeWinMass hx ax mg + drawMass hx ax mg + awayWinMass hx ax mg := by ring
  rw [hcomm]

/-- C4: swapping the home and away statistics records together with the
two sides of the modifier record swaps the returned `homeWin` and
`awayWin` percentages and leaves `draw` unchanged, for every pair of
records, every league average, and every (possibly absent) modifier set
— the model has no intrinsic home-field term. -/
theorem c4_symmetry :
    ∀ (hs ts : TeamStats) (L : ℝ) (mods : Option Modifiers),
      (predictCore ts hs L (swapOptModifiers mods)).homeWin
          = (predictCore hs ts L mods).awayWin
      ∧ (predictCore ts hs L (swapOptModifiers mods)).awayWin
          = (predictCore hs ts L mods).homeWin
      ∧ (predictCore ts hs L (swapOptModifiers mods)).draw
          = (predictCore hs ts L mods).draw := by
  intro hs ts L mods
  have hget : (swapOptModifiers mods).getD defaultModifiers
      = swapModifiers (mods.getD defaultModifiers) := by
    cases mods <;> rfl
  have hx1 : homeXGOf ts hs L ((swapOptModifiers mods).getD defaultModifiers)
      = awayXGOf hs ts L (mods.getD defaultModifiers) := by
    rw [hget]
    rfl
  have hx2 : awayXGOf ts hs L ((swapOptModifiers mods).getD defaultModifiers)
      = homeXGOf hs ts L (mods.getD defaultModifiers) := by
    rw [hget]
    rfl
  refine ⟨?_, ?_, ?_⟩
  · rw [predictCore_homeWin_eq, predictCore_awayWin_eq, hx1, hx2, engine_homeWin_swap]
  · rw [predictCore_awayWin_eq, predictCore_homeWin_eq, hx1, hx2, engine_awayWin_swap]
  · rw [predictCore_draw_eq, predictCore_draw_eq, hx1, hx2, engine_draw_swap]

/-! ## The likely-scores list -/

theorem engine_scoreMatrix_eq (hx ax : ℝ) (mg : ℕ) :
    (calculateMatchProbabilities hx ax mg).scoreMatrix
      = ((scoreMatrixList hx ax mg).mergeSort scoreSortLE).take 5 := rfl

theorem scoreSortLE_trans (a b c : ScoreEntry)
    (hab : scoreSortLE a b) (hbc : scoreSortLE b c) : scoreSortLE a c := by
  simp only [scoreSortLE, decide_eq_true_eq] at hab hbc ⊢
  exact le_trans hbc hab

theorem scoreSortLE_total (a b : ScoreEntry) : scoreSortLE a b || scoreSortLE b a := by
  simp only [scoreSortLE, Bool.or_eq_true, decide_eq_true_eq]
  exact le_total b.probability a.probability

theorem jsRoundScore_mono {x y : ℝ} (h : x ≤ y) : jsRoundScore x ≤ jsRoundScore y := by
  unfold jsRoundScore
  have hf : ⌊x * 1000 + 1/2⌋ ≤ ⌊y * 1000 + 1/2⌋ := Int.floor_le_floor (by linarith)
  have hc : ((⌊x * 1000 + 1/2⌋ : ℤ) : ℝ) ≤ ((⌊y * 1000 + 1/2⌋ : ℤ) : ℝ) := by
    exact_mod_cast hf
  linarith

theorem probability_of_mem_scoreMatrixList {hx ax : ℝ} {mg : ℕ} {c : ScoreEntry}
    (hc : c ∈ scoreMatrixList hx ax mg) :
    c.probability = scoreCell hx ax c.homeGoals c.awayGoals := by
  simp only [scoreMatrixList, List.mem_flatMap, List.mem_map] at hc
  obtain ⟨h, _, a, _, rfl⟩ := hc
  rfl

theorem length_scoreMatrixList (hx ax : ℝ) (mg : ℕ) :
    (scoreMatrixList hx ax mg).length = (mg + 1) * (mg + 1) := by
  simp only [scoreMatrixList, List.length_flatMap, Function.comp_def, List.length_map,
    List.length_range, List.map_const', List.sum_replicate, smul_eq_mul]

theorem scoreCell_of_nonpos_right {ax : ℝ} (hax : ax ≤ 0) (hx : ℝ) (h a : ℕ) :
    scoreCell hx ax h a = 0 := by
  simp [scoreCell, poissonProbability, if_pos hax]

theorem not_strict_pairwise_of_const_zero (l : List ScoreEntry) (hlen : 2 ≤ l.length)
    (hall : ∀ s ∈ l, s.probability = 0) :
    ¬ l.Pairwise (fun a b => b.probability < a.probability) := by
  intro hp
  cases l with
  | nil => simp at hlen
  | cons a t =>
    cases t with
    | nil => simp at hlen
    | cons b rest =>
      have hab : b.probability < a.probability :=
        (List.pairwise_cons.mp hp).1 b (by simp)
      have ha : a.probability = 0 := hall a (by simp)
      have hb : b.probability = 0 := hall b (by simp)
      rw [ha, hb] at hab
      exact lt_irrefl 0 hab

/-- C8: at an all-zero statistics record (`goalsScored = 0` for both
sides) every cell of the grid has probability `0`, so the five reported
likely scores all carry probability `0` and the list is not strictly
descending — the sort is only non-strictly descending (ties are kept in
grid order by the stable sort). -/
theorem c8_counterexample :
    ¬ ((predictCore ⟨none, some 0, some 0, some 1, none, none⟩
        ⟨none, some 0, some 0, some 1, none, none⟩ 1.5 none).likelyScores.Pairwise
          (fun a b => b.probability < a.probability)) := by
  have hxg0 : homeXGOf ⟨none, some 0, some 0, some 1, none, none⟩
      ⟨none, some 0, some 0, some 1, none, none⟩ 1.5 defaultModifiers = 0 := by
    norm_num [homeXGOf, homeAttackOf, awayDefenseOf, calculateAttackStrength,
      calculateDefenseStrength, calculateExpectedGoals, safeLeagueAverage,
      defaultModifiers, max_def]
  have haxg0 : awayXGOf ⟨none, some 0, some 0, some 1, none, none⟩
      ⟨none, some 0, some 0, some 1, none, none⟩ 1.5 defaultModifiers = 0 := by
    norm_num [awayXGOf, awayAttackOf, homeDefenseOf, calculateAttackStrength,
      calculateDefenseStrength, calculateExpectedGoals, safeLeagueAverage,
      defaultModifiers, max_def]
  have heq : (predictCore ⟨none, some 0, some 0, some 1, none, none⟩
      ⟨none, some 0, some 0, some 1, none, none⟩ 1.5 none).likelyScores
      = (((scoreMatrixList 0 0 10).mergeSort scoreSortLE).take 5).map
          (fun s => ⟨s.homeGoals, s.awayGoals, jsRoundScore s.probability⟩) := by
    rw [predictCore_likelyScores_eq]
    simp only [Option.getD_none, hxg0, haxg0]
    rfl
  apply not_strict_pairwise_of_const_zero
  · rw [heq]
    simp [List.length_take, length_scoreMatrixList]
  · intro s hs
    rw [heq] at hs
    obtain ⟨c, hc, rfl⟩ := List.mem_map.mp hs
    have hmem : c ∈ scoreMatrixList 0 0 10 :=
      List.mem_mergeSort.mp (List.mem_of_mem_take hc)
    have hzero : c.probability = 0 := by
      rw [probability_of_mem_scoreMatrixList hmem]
      exact scoreCell_of_nonpos_right le_rfl 0 c.homeGoals c.awayGoals
    show jsRoundScore c.probability = 0
    rw [hzero]
    norm_num [jsRoundScore]

/-- C8 (amended): for every prediction, `likelyScores` has length at most
`5`, is sorted descending by probability (non-strictly: cells with equal
probability are kept in grid order by the stable sort), and each entry's
probability is the joint scoreline probability of a grid cell expressed
as a percentage rounded to one decimal. -/
theorem c8_amended :
    ∀ (hs ts : TeamStats) (L : ℝ) (mods : Option Modifiers),
      (predictCore hs ts L mods).likelyScores.length ≤ 5
      ∧ (predictCore hs ts L mods).likelyScores.Pairwise
          (fun a b => b.probability ≤ a.probability)
      ∧ ∀ s ∈ (predictCore hs ts L mods).likelyScores,
          ∃ c ∈ scoreMatrixList (homeXGOf hs ts L (mods.getD defaultModifiers))
              (awayXGOf hs ts L (mods.getD defaultModifiers)) 10,
            s.homeGoals = c.homeGoals ∧ s.awayGoals = c.awayGoals
            ∧ s.probability = jsRoundScore c.probability := by
  intro hs ts L mods
  rw [predictCore_likelyScores_eq, engine_scoreMatrix_eq]
  refine ⟨?_, ?_, ?_⟩
  · simp [List.length_take]
  · have hsorted := List.sorted_mergeSort scoreSortLE_trans scoreSortLE_total
      (scoreMatrixList (homeXGOf hs ts L (mods.getD defaultModifiers))
        (awayXGOf hs ts L (mods.getD defaultModifiers)) 10)
    have hsorted' := hsorted.imp
      (fun {a b} h => by simpa [scoreSortLE, decide_eq_true_eq] using h :
        ∀ {a b : ScoreEntry}, scoreSortLE a b → b.probability ≤ a.probability)
    have htake := hsorted'.sublist (List.take_sublist 5 _)
    exact htake.map _ (fun a b h => jsRoundScore_mono h)
  · intro s hs'
    obtain ⟨c, hc, rfl⟩ := List.mem_map.mp hs'
    exact ⟨c, List.mem_mergeSort.mp (List.mem_of_mem_take hc), rfl, rfl, rfl⟩

/-! ## Monotonicity of the home-win share in the home expected goals

The proof factors the common `exp` terms out of the Poisson weights and
reduces to a Chebyshev-type sum inequality for the power weights
`x ^ h / h!` against the nondecreasing opponent tail sums. -/

theorem cheb_sum_le (n : ℕ) (w G : ℕ → ℝ) (x y : ℝ) (hx : 0 < x) (hxy : x ≤ y)
    (hw : ∀ i, 0 ≤ w i) (hG : Monotone G) :
    (∑ h ∈ Finset.range n, w h * x ^ h * G h) * (∑ k ∈ Finset.range n, w k * y ^ k)
      ≤ (∑ h ∈ Finset.range n, w h * y ^ h * G h) * (∑ k ∈ Finset.range n, w k * x ^ k) := by
  have hy : 0 < y := lt_of_lt_of_le hx hxy
  have key : ∀ h k : ℕ,
      0 ≤ w h * w k * ((G h - G k) * (y ^ h * x ^ k - x ^ h * y ^ k)) := by
    intro h k
    have base : ∀ i j : ℕ, i ≤ j →
        (G i - G j) * (y ^ i * x ^ j - x ^ i * y ^ j) ≥ 0 := by
      intro i j hij
      obtain ⟨d, rfl⟩ := Nat.exists_eq_add_of_le hij
      have h1 : G i - G (i + d) ≤ 0 := sub_nonpos.mpr (hG (Nat.le_add_right i d))
      have h2 : y ^ i * x ^ (i + d) - x ^ i * y ^ (i + d) ≤ 0 := by
        have hpd : x ^ d ≤ y ^ d := pow_le_pow_left₀ hx.le hxy d
        have hfac : y ^ i * x ^ (i + d) - x ^ i * y ^ (i + d)
            = x ^ i * y ^ i * (x ^ d - y ^ d) := by
          rw [pow_add, pow_add]
          ring
        rw [hfac]
        exact mul_nonpos_of_nonneg_of_nonpos (by positivity) (sub_nonpos.mpr hpd)
      nlinarith [mul_nonneg (neg_nonneg.mpr h1) (neg_nonneg.mpr h2)]
    rcases le_total h k with hhk | hkh
    · exact mul_nonneg (mul_nonneg (hw h) (hw k)) (base h k hhk)
    · have := base k h hkh
      have hsym : (G h - G k) * (y ^ h * x ^ k - x ^ h * y ^ k)
          = (G k - G h) * (y ^ k * x ^ h - x ^ k * y ^ h) := by ring
      rw [hsym]
      exact mul_nonneg (mul_nonneg (hw h) (hw k)) this
  have hD : (∑ h ∈ Finset.range n, w h * y ^ h * G h) * (∑ k ∈ Finset.range n, w k * x ^ k)
      - (∑ h ∈ Finset.range n, w h * x ^ h * G h) * (∑ k ∈ Finset.range n, w k * y ^ k)
      = ∑ h ∈ Finset.range n, ∑ k ∈ Finset.range n,
          w h * w k * G h * (y ^ h * x ^ k - x ^ h * y ^ k) := by
    rw [Finset.sum_mul_sum, Finset.sum_mul_sum, ← Finset.sum_sub_distrib]
    refine Finset.sum_congr rfl fun h _ => ?_
    rw [← Finset.sum_sub_distrib]
    refine Finset.sum_congr rfl fun k _ => ?_
    ring
  have hswap : (∑ h ∈ Finset.range n, ∑ k ∈ Finset.range n,
        w h * w k * G h * (y ^ h * x ^ k - x ^ h * y ^ k))
      = ∑ h ∈ Finset.range n, ∑ k ∈ Finset.range n,
          w h * w k * G k * (y ^ k * x ^ h - x ^ k * y ^ h) := by
    rw [Finset.sum_comm]
    refine Finset.sum_congr rfl fun h _ => Finset.sum_congr rfl fun k _ => ?_
    ring
  have htwice : (∑ h ∈ Finset.range n, ∑ k ∈ Finset.range n,
        w h * w k * G h * (y ^ h * x ^ k - x ^ h * y ^ k))
      + (∑ h ∈ Finset.range n, ∑ k ∈ Finset.range n,
          w h * w k * G h * (y ^ h * x ^ k - x ^ h * y ^ k))
      = ∑ h ∈ Finset.range n, ∑ k ∈ Finset.range n,
          w h * w k * ((G h - G k) * (y ^ h * x ^ k - x ^ h * y ^ k)) := by
    nth_rewrite 2 [hswap]
    rw [← Finset.sum_add_distrib]
    refine Finset.sum_congr rfl fun h _ => ?_
    rw [← Finset.sum_add_distrib]
    refine Finset.sum_congr rfl fun k _ => ?_
    ring
  have hnn : 0 ≤ ∑ h ∈ Finset.range n, ∑ k ∈ Finset.range n,
      w h * w k * ((G h - G k) * (y ^ h * x ^ k - x ^ h * y ^ k)) :=
    Finset.sum_nonneg fun h _ => Finset.sum_nonneg fun k _ => key h k
  nlinarith [hD, htwice, hnn]

theorem indicator_G_mono (la : ℝ) (mg : ℕ) :
    Monotone (fun h : ℕ =>
      ∑ a ∈ Finset.range (mg + 1), if a < h then poissonProbability la a else 0) := by
  intro h h' hh
  refine Finset.sum_le_sum fun a _ => ?_
  by_cases hc : a < h
  · rw [if_pos hc, if_pos (lt_of_lt_of_le hc hh)]
  · rw [if_neg hc]
    split
    · exact poissonProbability_nonneg la a
    · exact le_refl 0

theorem poisson_eq_of_pos {l : ℝ} (hl : 0 < l) (k : ℕ) :
    poissonProbability l k = Real.exp (-l) * ((1 / (factorial k : ℝ)) * l ^ k) := by
  unfold poissonProbability
  rw [if_neg (not_le.mpr hl)]
  ring

theorem homeWinMass_factor {lh : ℝ} (hlh : 0 < lh) (la : ℝ) (mg : ℕ) :
    homeWinMass lh la mg
      = Real.exp (-lh) * ∑ h ∈ Finset.range (mg + 1),
          (1 / (factorial h : ℝ)) * lh ^ h *
            (∑ a ∈ Finset.range (mg + 1), if a < h then poissonProbability la a else 0) := by
  unfold homeWinMass
  rw [Finset.mul_sum]
  refine Finset.sum_congr rfl fun h _ => ?_
  have hstep : ∀ a : ℕ, (if a < h then scoreCell lh la h a else 0)
      = poissonProbability lh h * (if a < h then poissonProbability la a else 0) := by
    intro a
    by_cases hc : a < h
    · rw [if_pos hc, if_pos hc]
      rfl
    · rw [if_neg hc, if_neg hc, mul_zero]
  calc (∑ a ∈ Finset.range (mg + 1), if a < h then scoreCell lh la h a else 0)
      = ∑ a ∈ Finset.range (mg + 1),
          poissonProbability lh h * (if a < h then poissonProbability la a else 0) :=
        Finset.sum_congr rfl fun a _ => hstep a
    _ = poissonProbability lh h *
          ∑ a ∈ Finset.range (mg + 1), (if a < h then poissonProbability la a else 0) :=
        (Finset.mul_sum _ _ _).symm
    _ = Real.exp (-lh) * ((1 / (factorial h : ℝ)) * lh ^ h *
          (∑ a ∈ Finset.range (mg + 1), if a < h then poissonProbability la a else 0)) := by
        rw [poisson_eq_of_pos hlh]
        ring

theorem totalMass_eq_grid (lh la : ℝ) (mg : ℕ) :
    totalMass lh la mg
      = ∑ h ∈ Finset.range (mg + 1), ∑ a ∈ Finset.range (mg + 1), scoreCell lh la h a := by
  unfold totalMass homeWinMass drawMass awayWinMass
  rw [← Finset.sum_add_distrib, ← Finset.sum_add_distrib]
  refine Finset.sum_congr rfl fun h _ => ?_
  rw [← Finset.sum_add_distrib, ← Finset.sum_add_distrib]
  refine Finset.sum_congr rfl fun a _ => ?_
  rcases lt_trichotomy a h with hc | hc | hc
  · rw [if_pos hc, if_neg (ne_of_lt hc), if_neg (not_lt_of_gt hc)]
    ring
  · rw [if_neg (by omega), if_pos hc, if_neg (by omega)]
    ring
  · rw [if_neg (not_lt_of_gt hc), if_neg (ne_of_gt hc), if_pos hc]
    ring

theorem totalMass_factor {lh : ℝ} (hlh : 0 < lh) (la : ℝ) (mg : ℕ) :
    totalMass lh la mg
      = Real.exp (-lh) * (∑ h ∈ Finset.range (mg + 1), (1 / (factorial h : ℝ)) * lh ^ h)
          * (∑ a ∈ Finset.range (mg + 1), poissonProbability la a) := by
  rw [totalMass_eq_grid]
  have hgrid : ∑ h ∈ Finset.range (mg + 1), ∑ a ∈ Finset.range (mg + 1), scoreCell lh la h a
      = (∑ h ∈ Finset.range (mg + 1), poissonProbability lh h)
          * (∑ a ∈ Finset.range (mg + 1), poissonProbability la a) := by
    rw [Finset.sum_mul_sum]
    rfl
  rw [hgrid]
  have hfac : (∑ h ∈ Finset.range (mg + 1), poissonProbability lh h)
      = Real.exp (-lh) * ∑ h ∈ Finset.range (mg + 1), (1 / (factorial h : ℝ)) * lh ^ h := by
    rw [Finset.mul_sum]
    exact Finset.sum_congr rfl fun h _ => poisson_eq_of_pos hlh h
  rw [hfac]

theorem homeWinShare_mono {la x y : ℝ} (hla : 0 < la) (hx : 0 < x) (hxy : x ≤ y) (mg : ℕ) :
    homeWinMass x la mg / totalMass x la mg ≤ homeWinMass y la mg / totalMass y la mg := by
  have hy : 0 < y := lt_of_lt_of_le hx hxy
  have hTx : 0 < totalMass x la mg := totalMass_pos hx hla mg
  have hTy : 0 < totalMass y la mg := totalMass_pos hy hla mg
  rw [div_le_div_iff₀ hTx hTy]
  rw [homeWinMass_factor hx la mg, homeWinMass_factor hy la mg,
    totalMass_factor hx la mg, totalMass_factor hy la mg]
  have hQ : 0 < ∑ a ∈ Finset.range (mg + 1), poissonProbability la a :=
    Finset.sum_pos (fun a _ => poissonProbability_pos hla a) ⟨0, by simp⟩
  have hcheb := cheb_sum_le (mg + 1) (fun h => 1 / (factorial h : ℝ))
    (fun h => ∑ a ∈ Finset.range (mg + 1), if a < h then poissonProbability la a else 0)
    x y hx hxy
    (fun i => by positivity)
    (indicator_G_mono la mg)
  have hex : 0 < Real.exp (-x) := Real.exp_pos _
  have hey : 0 < Real.exp (-y) := Real.exp_pos _
  nlinarith [mul_le_mul_of_nonneg_left hcheb
    (le_of_lt (mul_pos (mul_pos hex hey) hQ)), hQ, hex, hey]

theorem jsRound1_mono {x y : ℝ} (h : x ≤ y) : jsRound1 x ≤ jsRound1 y := by
  unfold jsRound1
  have hf : ⌊x * 10 + 1/2⌋ ≤ ⌊y * 10 + 1/2⌋ := Int.floor_le_floor (by linarith)
  have hc : ((⌊x * 10 + 1/2⌋ : ℤ) : ℝ) ≤ ((⌊y * 10 + 1/2⌋ : ℤ) : ℝ) := by exact_mod_cast hf
  linarith

theorem safeLeagueAverage_pos (L : ℝ) : 0 < safeLeagueAverage L := by
  unfold safeLeagueAverage
  split
  · assumption
  · norm_num

theorem homeXGOf_linear (hs ts : TeamStats) (L : ℝ) (mods : Modifiers) :
    homeXGOf hs ts L mods
      = hs.goalsScored.getD 0 / max 1 (hs.matchesPlayed.getD 1) / safeLeagueAverage L
        * mods.home.attackMultiplier
        * awayDefenseOf ts L mods * safeLeagueAverage L := by
  have hmp : max 1 (hs.matchesPlayed.getD 1) ≠ (0 : ℝ) := by
    have : (0 : ℝ) < max 1 (hs.matchesPlayed.getD 1) :=
      lt_of_lt_of_le one_pos (le_max_left _ _)
    exact this.ne'
  unfold homeXGOf calculateExpectedGoals homeAttackOf calculateAttackStrength
  rw [if_neg hmp]

theorem awayDefenseOf_pos (ts : TeamStats) (L : ℝ) (mods : Modifiers)
    (hgc : 0 < ts.goalsConceded.getD 0) (hdm : 0 < mods.away.defenseMultiplier) :
    0 < awayDefenseOf ts L mods := by
  have hmp : (0 : ℝ) < max 1 (ts.matchesPlayed.getD 1) :=
    lt_of_lt_of_le one_pos (le_max_left _ _)
  unfold awayDefenseOf calculateDefenseStrength
  rw [if_neg hmp.ne']
  exact mul_pos (div_pos (div_pos hgc hmp) (safeLeagueAverage_pos L)) hdm

theorem homeDefenseOf_pos (hs : TeamStats) (L : ℝ) (mods : Modifiers)
    (hgc : 0 < hs.goalsConceded.getD 0) (hdm : 0 < mods.home.defenseMultiplier) :
    0 < homeDefenseOf hs L mods := by
  have hmp : (0 : ℝ) < max 1 (hs.matchesPlayed.getD 1) :=
    lt_of_lt_of_le one_pos (le_max_left _ _)
  unfold homeDefenseOf calculateDefenseStrength
  rw [if_neg hmp.ne']
  exact mul_pos (div_pos (div_pos hgc hmp) (safeLeagueAverage_pos L)) hdm

theorem awayAttackOf_pos (ts : TeamStats) (L : ℝ) (mods : Modifiers)
    (hgs : 0 < ts.goalsScored.getD 0) (ham : 0 < mods.away.attackMultiplier) :
    0 < awayAttackOf ts L mods := by
  have hmp : (0 : ℝ) < max 1 (ts.matchesPlayed.getD 1) :=
    lt_of_lt_of_le one_pos (le_max_left _ _)
  unfold awayAttackOf calculateAttackStrength
  rw [if_neg hmp.ne']
  exact mul_pos (div_pos (div_pos hgs hmp) (safeLeagueAverage_pos L)) ham

/-- C5: holding the team statistics, the league average and every other
modifier field fixed, increasing the home `attackMultiplier` over
positive multipliers never decreases the returned (rounded) `homeWin`
percentage.  The positivity hypotheses on goals scored/conceded and on
the remaining multipliers make both expected-goal values positive, which
is exactly the regime in which the percentage is a number at all. -/
theorem c5_monotone (hs ts : TeamStats) (L : ℝ) (mods : Modifiers) (m m' : ℝ)
    (hm : 0 < m) (hmm : m ≤ m')
    (hgs : 0 < hs.goalsScored.getD 0) (hgc : 0 < hs.goalsConceded.getD 0)
    (hgs2 : 0 < ts.goalsScored.getD 0) (hgc2 : 0 < ts.goalsConceded.getD 0)
    (haa : 0 < mods.away.attackMultiplier) (had : 0 < mods.away.defenseMultiplier)
    (hhd : 0 < mods.home.defenseMultiplier) :
    ∃ hw hw' : ℝ,
      (predictCore hs ts L (some ⟨⟨m, mods.home.defenseMultiplier,
          mods.home.formWeight⟩, mods.away⟩)).homeWin = some hw
      ∧ (predictCore hs ts L (some ⟨⟨m', mods.home.defenseMultiplier,
          mods.home.formWeight⟩, mods.away⟩)).homeWin = some hw'
      ∧ hw ≤ hw' := by
  have hSL : 0 < safeLeagueAverage L := safeLeagueAverage_pos L
  have hmp : (0 : ℝ) < max 1 (hs.matchesPlayed.getD 1) :=
    lt_of_lt_of_le one_pos (le_max_left _ _)
  have hbase : 0 < hs.goalsScored.getD 0 / max 1 (hs.matchesPlayed.getD 1)
      / safeLeagueAverage L := div_pos (div_pos hgs hmp) hSL
  have haD : 0 < awayDefenseOf ts L mods := awayDefenseOf_pos ts L mods hgc2 had
  have hla : 0 < awayXGOf hs ts L mods := by
    unfold awayXGOf calculateExpectedGoals
    exact mul_pos (mul_pos (awayAttackOf_pos ts L mods hgs2 haa)
      (homeDefenseOf_pos hs L mods hgc hhd)) hSL
  have hx : 0 < homeXGOf hs ts L
      ⟨⟨m, mods.home.defenseMultiplier, mods.home.formWeight⟩, mods.away⟩ := by
    rw [homeXGOf_linear]
    exact mul_pos (mul_pos (mul_pos hbase hm) haD) hSL
  have hy : 0 < homeXGOf hs ts L
      ⟨⟨m', mods.home.defenseMultiplier, mods.home.formWeight⟩, mods.away⟩ := by
    rw [homeXGOf_linear]
    exact mul_pos (mul_pos (mul_pos hbase (lt_of_lt_of_le hm hmm)) haD) hSL
  have hxy : homeXGOf hs ts L
        ⟨⟨m, mods.home.defenseMultiplier, mods.home.formWeight⟩, mods.away⟩
      ≤ homeXGOf hs ts L
        ⟨⟨m', mods.home.defenseMultiplier, mods.home.formWeight⟩, mods.away⟩ := by
    rw [homeXGOf_linear, homeXGOf_linear]
    show hs.goalsScored.getD 0 / max 1 (hs.matchesPlayed.getD 1) / safeLeagueAverage L
        * m * awayDefenseOf ts L mods * safeLeagueAverage L
      ≤ hs.goalsScored.getD 0 / max 1 (hs.matchesPlayed.getD 1) / safeLeagueAverage L
        * m' * awayDefenseOf ts L mods * safeLeagueAverage L
    have h1 : hs.goalsScored.getD 0 / max 1 (hs.matchesPlayed.getD 1) / safeLeagueAverage L
        * m ≤ hs.goalsScored.getD 0 / max 1 (hs.matchesPlayed.getD 1) / safeLeagueAverage L
        * m' := mul_le_mul_of_nonneg_left hmm hbase.le
    exact mul_le_mul_of_nonneg_right
      (mul_le_mul_of_nonneg_right h1 haD.le) hSL.le
  have hshare := homeWinShare_mono hla hx hxy 10
  have hTx := totalMass_pos hx hla 10
  have hTy := totalMass_pos hy hla 10
  have hTx' : homeWinMass (homeXGOf hs ts L
        ⟨⟨m, mods.home.defenseMultiplier, mods.home.formWeight⟩, mods.away⟩)
        (awayXGOf hs ts L mods) 10
      + drawMass (homeXGOf hs ts L
        ⟨⟨m, mods.home.defenseMultiplier, mods.home.formWeight⟩, mods.away⟩)
        (awayXGOf hs ts L mods) 10
      + awayWinMass (homeXGOf hs ts L
        ⟨⟨m, mods.home.defenseMultiplier, mods.home.formWeight⟩, mods.away⟩)
        (awayXGOf hs ts L mods) 10 ≠ 0 := by
    have := hTx
    unfold totalMass at this
    exact this.ne'
  have hTy' : homeWinMass (homeXGOf hs ts L
        ⟨⟨m', mods.home.defenseMultiplier, mods.home.formWeight⟩, mods.away⟩)
        (awayXGOf hs ts L mods) 10
      + drawMass (homeXGOf hs ts L
        ⟨⟨m', mods.home.defenseMultiplier, mods.home.formWeight⟩, mods.away⟩)
        (awayXGOf hs ts L mods) 10
      + awayWinMass (homeXGOf hs ts L
        ⟨⟨m', mods.home.defenseMultiplier, mods.home.formWeight⟩, mods.away⟩)
        (awayXGOf hs ts L mods) 10 ≠ 0 := by
    have := hTy
    unfold totalMass at this
    exact this.ne'
  have h1 : (predictCore hs ts L (some ⟨⟨m, mods.home.defenseMultiplier,
      mods.home.formWeight⟩, mods.away⟩)).homeWin
      = some (jsRound1 (homeWinMass (homeXGOf hs ts L
          ⟨⟨m, mods.home.defenseMultiplier, mods.home.formWeight⟩, mods.away⟩)
          (awayXGOf hs ts L mods) 10
        / (homeWinMass (homeXGOf hs ts L
            ⟨⟨m, mods.home.defenseMultiplier, mods.home.formWeight⟩, mods.away⟩)
            (awayXGOf hs ts L mods) 10
          + drawMass (homeXGOf hs ts L
            ⟨⟨m, mods.home.defenseMultiplier, mods.home.formWeight⟩, mods.away⟩)
            (awayXGOf hs ts L mods) 10
          + awayWinMass (homeXGOf hs ts L
            ⟨⟨m, mods.home.defenseMultiplier, mods.home.formWeight⟩, mods.away⟩)
            (awayXGOf hs ts L mods) 10) * 100)) := by
    rw [predictCore_homeWin_eq]
    simp only [Option.getD_some]
    rw [show awayXGOf hs ts L
        ⟨⟨m, mods.home.defenseMultiplier, mods.home.formWeight⟩, mods.away⟩
      = awayXGOf hs ts L mods from rfl]
    rw [engine_homeWin_of_total_ne _ _ _ hTx']
    rfl
  have h2 : (predictCore hs ts L (some ⟨⟨m', mods.home.defenseMultiplier,
      mods.home.formWeight⟩, mods.away⟩)).homeWin
      = some (jsRound1 (homeWinMass (homeXGOf hs ts L
          ⟨⟨m', mods.home.defenseMultiplier, mods.home.formWeight⟩, mods.away⟩)
          (awayXGOf hs ts L mods) 10
        / (homeWinMass (homeXGOf hs ts L
            ⟨⟨m', mods.home.defenseMultiplier, mods.home.formWeight⟩, mods.away⟩)
            (awayXGOf hs ts L mods) 10
          + drawMass (homeXGOf hs ts L
            ⟨⟨m', mods.home.defenseMultiplier, mods.home.formWeight⟩, mods.away⟩)
            (awayXGOf hs ts L mods) 10
          + awayWinMass (homeXGOf hs ts L
            ⟨⟨m', mods.home.defenseMultiplier, mods.home.formWeight⟩, mods.away⟩)
            (awayXGOf hs ts L mods) 10) * 100)) := by
    rw [predictCore_homeWin_eq]
    simp only [Option.getD_some]
    rw [show awayXGOf hs ts L
        ⟨⟨m', mods.home.defenseMultiplier, mods.home.formWeight⟩, mods.away⟩
      = awayXGOf hs ts L mods from rfl]
    rw [engine_homeWin_of_total_ne _ _ _ hTy']
    rfl
  have hle : jsRound1 (homeWinMass (homeXGOf hs ts L
        ⟨⟨m, mods.home.defenseMultiplier, mods.home.formWeight⟩, mods.away⟩)
        (awayXGOf hs ts L mods) 10
      / (homeWinMass (homeXGOf hs ts L
          ⟨⟨m, mods.home.defenseMultiplier, mods.home.formWeight⟩, mods.away⟩)
          (awayXGOf hs ts L mods) 10
        + drawMass (homeXGOf hs ts L
          ⟨⟨m, mods.home.defenseMultiplier, mods.home.formWeight⟩, mods.away⟩)
          (awayXGOf hs ts L mods) 10
        + awayWinMass (homeXGOf hs ts L
          ⟨⟨m, mods.home.defenseMultiplier, mods.home.formWeight⟩, mods.away⟩)
          (awayXGOf hs ts L mods) 10) * 100)
      ≤ jsRound1 (homeWinMass (homeXGOf hs ts L
        ⟨⟨m', mods.home.defenseMultiplier, mods.home.formWeight⟩, mods.away⟩)
        (awayXGOf hs ts L mods) 10
      / (homeWinMass (homeXGOf hs ts L
          ⟨⟨m', mods.home.defenseMultiplier, mods.home.formWeight⟩, mods.away⟩)
          (awayXGOf hs ts L mods) 10
        + drawMass (homeXGOf hs ts L
          ⟨⟨m', mods.home.defenseMultiplier, mods.home.formWeight⟩, mods.away⟩)
          (awayXGOf hs ts L mods) 10
        + awayWinMass (homeXGOf hs ts L
          ⟨⟨m', mods.home.defenseMultiplier, mods.home.formWeight⟩, mods.away⟩)
          (awayXGOf hs ts L mods) 10) * 100) := by
    apply jsRound1_mono
    have hshare' := mul_le_mul_of_nonneg_right hshare (by norm_num : (0 : ℝ) ≤ 100)
    unfold totalMass at hshare'
    exact hshare'
  exact ⟨_, _, h1, h2, hle⟩

/-- C5 witness: the monotonicity theorem applied at a concrete input
(both records `{goalsScored: 3, goalsConceded: 3, matchesPlayed: 2}`,
league average `1.5`, neutral modifiers, home attack multiplier raised
from `1` to `2`). -/
theorem c5_witness :
    ((0 : ℝ) < 1 ∧ (1 : ℝ) ≤ 2)
    ∧ ∃ hw hw' : ℝ,
        (predictCore ⟨none, some 3, some 3, some 2, none, none⟩
          ⟨none, some 3, some 3, some 2, none, none⟩ 1.5
          (some ⟨⟨1, defaultModifiers.home.defenseMultiplier,
            defaultModifiers.home.formWeight⟩, defaultModifiers.away⟩)).homeWin = some hw
        ∧ (predictCore ⟨none, some 3, some 3, some 2, none, none⟩
          ⟨none, some 3, some 3, some 2, none, none⟩ 1.5
          (some ⟨⟨2, defaultModifiers.home.defenseMultiplier,
            defaultModifiers.home.formWeight⟩, defaultModifiers.away⟩)).homeWin = some hw'
        ∧ hw ≤ hw' :=
  ⟨⟨by norm_num, by norm_num⟩,
   c5_monotone ⟨none, some 3, some 3, some 2, none, none⟩
     ⟨none, some 3, some 3, some 2, none, none⟩ 1.5 defaultModifiers 1 2
     (by norm_num) (by norm_num)
     (by exact (by norm_num : (0 : ℝ) < 3)) (by exact (by norm_num : (0 : ℝ) < 3))
     (by exact (by norm_num : (0 : ℝ) < 3)) (by exact (by norm_num : (0 : ℝ) < 3))
     (by norm_num [defaultModifiers]) (by norm_num [defaultModifiers])
     (by norm_num [defaultModifiers])⟩

/-- C4 witness: the symmetry theorem applied at a concrete pair of
records (home `{4 scored, 2 conceded}` versus away `{1 scored, 3
conceded}`, both over 2 matches) with no modifiers. -/
theorem c4_witness :
    (predictCore ⟨none, some 1, some 3, some 2, none, none⟩
        ⟨none, some 4, some 2, some 2, none, none⟩ 1.5 (swapOptModifiers none)).homeWin
      = (predictCore ⟨none, some 4, some 2, some 2, none, none⟩
        ⟨none, some 1, some 3, some 2, none, none⟩ 1.5 none).awayWin
    ∧ (predictCore ⟨none, some 1, some 3, some 2, none, none⟩
        ⟨none, some 4, some 2, some 2, none, none⟩ 1.5 (swapOptModifiers none)).awayWin
      = (predictCore ⟨none, some 4, some 2, some 2, none, none⟩
        ⟨none, some 1, some 3, some 2, none, none⟩ 1.5 none).homeWin
    ∧ (predictCore ⟨none, some 1, some 3, some 2, none, none⟩
        ⟨none, some 4, some 2, some 2, none, none⟩ 1.5 (swapOptModifiers none)).draw
      = (predictCore ⟨none, some 4, some 2, some 2, none, none⟩
        ⟨none, some 1, some 3, some 2, none, none⟩ 1.5 none).draw :=
  c4_symmetry ⟨none, some 4, some 2, some 2, none, none⟩
    ⟨none, some 1, some 3, some 2, none, none⟩ 1.5 none

/-- C6 witness: the raise/no-raise characterisation applied at a
concrete record, league average and absent modifier set. -/
theorem c6_witness :
    predictMatch (some ⟨none, some 3, some 3, some 0, none, none⟩)
        (some ⟨none, some 0, some 0, some 0, none, none⟩) 0 none
      = Except.ok (predictCore ⟨none, some 3, some 3, some 0, none, none⟩
          ⟨none, some 0, some 0, some 0, none, none⟩ 0 none)
    ∧ predictMatch none (some ⟨none, some 0, some 0, some 0, none, none⟩) 0 none
      = Except.error missingStatsError
    ∧ predictMatch (some ⟨none, some 3, some 3, some 0, none, none⟩) none 0 none
      = Except.error missingStatsError
    ∧ predictMatch none none 0 none = Except.error missingStatsError :=
  c6_raises_iff_absent ⟨none, some 3, some 3, some 0, none, none⟩
    ⟨none, some 0, some 0, some 0, none, none⟩ 0 none

/-- C8 witness: the likely-scores shape theorem applied at a concrete
prediction. -/
theorem c8_witness :
    (predictCore ⟨none, some 3, some 3, some 2, none, none⟩
        ⟨none, some 3, some 3, some 2, none, none⟩ 1.5 none).likelyScores.length ≤ 5
    ∧ (predictCore ⟨none, some 3, some 3, some 2, none, none⟩
        ⟨none, some 3, some 3, some 2, none, none⟩ 1.5 none).likelyScores.Pairwise
        (fun a b => b.probability ≤ a.probability)
    ∧ ∀ s ∈ (predictCore ⟨none, some 3, some 3, some 2, none, none⟩
        ⟨none, some 3, some 3, some 2, none, none⟩ 1.5 none).likelyScores,
        ∃ c ∈ scoreMatrixList
            (homeXGOf ⟨none, some 3, some 3, some 2, none, none⟩
              ⟨none, some 3, some 3, some 2, none, none⟩ 1.5
              ((none : Option Modifiers).getD defaultModifiers))
            (awayXGOf ⟨none, some 3, some 3, some 2, none, none⟩
              ⟨none, some 3, some 3, some 2, none, none⟩ 1.5
              ((none : Option Modifiers).getD defaultModifiers)) 10,
          s.homeGoals = c.homeGoals ∧ s.awayGoals = c.awayGoals
          ∧ s.probability = jsRoundScore c.probability :=
  c8_amended ⟨none, some 3, some 3, some 2, none, none⟩
    ⟨none, some 3, some 3, some 2, none, none⟩ 1.5 none
